import Mathlib

/-!
Verification of the lc_sqlalchemy_dbutils library (manager.py, schema.py, view.py).

A shallow embedding of the library's connection/session lifecycle manager
(`DBManager` in `manager.py`) and of its dialect-aware SQL fragment
generators (`schema.py`, `view.py`), together with theorems settling the
spec's testable properties.

Modelling conventions:
* Opaque SQLAlchemy resources (Engine, Session, session factory, MetaData)
  are represented by `Nat` handles.  Freshly allocated handles are passed
  in explicitly by the caller (they stand for the objects SQLAlchemy's
  constructors return).
* Python `RuntimeError(msg)` raises are modelled by returning the exact
  message string; since CPython mutates `self` in place, every operation
  returns the post-state even on the error path (for the primitive
  operations the post-state on error equals the pre-state; for the
  composite `connect` it does not, which is observable).
* Python field names `_engine`, `_session`, `_session_factory`,
  `_scoped_sessions` keep their leading underscore.
-/

namespace DbUtils

/-- The SQL dialects named by the `@compiles(…, "<dialect>")` registrations
in `schema.py` and `view.py`. -/
inductive Dialect where
  | mssql
  | mysql
  | oracle
  | postgresql
  | sqlite
deriving DecidableEq, Repr

/-! Embedding of schema.py. -/

/-- Function generate_timestamp_expression (schema.py): the per-dialect renderers
registered with `@compiles(TimestampDefaultExpression, d)`, collected as one
function from the dialect to the returned SQL text. -/
def generate_timestamp_expression : Dialect → String
  | .mssql => "GETUTCDATE()"
  | .mysql => "UTC_TIMESTAMP()"
  | .oracle => "SYS_EXTRACT_UTC(SYSTIMESTAMP)"
  | .postgresql => "(NOW() AT TIME ZONE 'UTC')"
  | .sqlite => "CURRENT_TIMESTAMP"

/-- Function generate_ntext_type (schema.py): the per-dialect renderers registered
with `@compiles(UnicodeTextDefaultType, d)`.  `length` is the
`UnicodeTextDefaultType.length` attribute, `none` for Python `None`.
Python's `not element.length` is true for `None` and for `0`; `0` is also
`<= 0`, so the two truthiness tests coincide with the `Option`/`≤ 0` split
used here. -/
def generate_ntext_type (length : Option Int) : Dialect → String
  | .mssql =>
    match length with
    | none => "NVARCHAR(MAX)"
    | some l => if l ≤ 0 then "NVARCHAR(MAX)" else "NVARCHAR(" ++ toString l ++ ")"
  | .mysql => "TEXT"
  | .oracle =>
    match length with
    | none => "NVARCHAR2(4000)"
    | some l => if l ≤ 0 then "NVARCHAR2(4000)" else "NVARCHAR2(" ++ toString l ++ ")"
  | .postgresql => "TEXT"
  | .sqlite => "TEXT"

/-! Embedding of view.py. -/

/-- The two drop-DDL element classes of `view.py`:
`DropViewExpression(name)` and its subclass
`DropMaterializedViewExpression(name)`. -/
inductive ViewDropExpr where
  | DropViewExpression (name : String)
  | DropMaterializedViewExpression (name : String)
deriving DecidableEq, Repr

/-- Function generate_view_drop_expression (view.py), registered with
`@compiles(DropViewExpression)` for every dialect. -/
def generate_view_drop_expression (name : String) : String :=
  "DROP VIEW IF EXISTS " ++ name

/-- Function generate_mview_drop_expression (view.py), registered with
`@compiles(DropMaterializedViewExpression, "postgresql")`.  The returned
text is kept verbatim from the source, including the source's misspelling
of the MATERIALIZED keyword. -/
def generate_mview_drop_expression (name : String) : String :=
  "DROP MATERIZLIZED VIEW IF EXISTS " ++ name

/-- Dialect dispatch for the drop DDL elements, as SQLAlchemy's
`@compiles` machinery resolves it: `DropMaterializedViewExpression` has a
`postgresql`-specific renderer and otherwise falls back to the default
renderer inherited from `DropViewExpression`; `DropViewExpression` uses
the default renderer on every dialect. -/
def render_drop : ViewDropExpr → Dialect → String
  | .DropViewExpression name, _ => generate_view_drop_expression name
  | .DropMaterializedViewExpression name, .postgresql =>
    generate_mview_drop_expression name
  | .DropMaterializedViewExpression name, _ =>
    generate_view_drop_expression name

/-- The `listen(metadata, "before_drop", …)` registration made by
`create_view` (view.py): the DDL element attached to the before-drop-all
event is the materialized variant exactly when `materialized` is set. -/
def before_drop_hook (name : String) (materialized : Bool) : ViewDropExpr :=
  if materialized then .DropMaterializedViewExpression name
  else .DropViewExpression name

/-! Embedding of manager.py: state. -/

/-- The mutable state of a `DBManager` (manager.py `__slots__`).
`connection_url` and `metadata` model the constructor arguments;
`metadata` is `none` when no `MetaData` was supplied (`None` in Python). -/
structure DBManager where
  connection_url : String
  metadata : Option Nat
  _scoped_sessions : Bool
  _engine : Option Nat
  _session : Option Nat
  _session_factory : Option Nat
deriving DecidableEq, Repr

/-- Constructor DBManager.__init__: stores the connection URL and optional metadata,
and starts with no engine, no session and no session factory. -/
def DBManager.init (connection_url : String) (metadata : Option Nat := none)
    (scoped_sessions : Bool := false) : DBManager :=
  { connection_url := connection_url
    metadata := metadata
    _scoped_sessions := scoped_sessions
    _engine := none
    _session := none
    _session_factory := none }

/-- The lifecycle states of §4.1 of the spec, read off a manager:
`NoEngine` when no engine handle is held, `EngineOnly` when an engine but
no session factory is held, `Connected` when both are held. -/
inductive LifecycleState where
  | NoEngine
  | EngineOnly
  | Connected
deriving DecidableEq, Repr

def lifecycle (m : DBManager) : LifecycleState :=
  if m._engine.isNone then .NoEngine
  else if m._session_factory.isNone then .EngineOnly
  else .Connected

/-- The spec's error taxonomy (§7), recovered from the exact
`RuntimeError` message strings raised by manager.py.  Both messages that
report a missing engine map to `NoEngine`.  The message raised when
`self.metadata` is unset reads "with MetaData" in the source (an evident
slip for "without"); it is the manager's missing-schema failure and maps
to `NoSchema`. -/
inductive ErrorKind where
  | AlreadyConnected
  | AlreadyFactory
  | SessionAlreadyActive
  | NoEngine
  | NoFactory
  | NoActiveSession
  | NoSchema
  | Other
deriving DecidableEq, Repr

def errorKind (msg : String) : ErrorKind :=
  if msg = "Cannot attach new Engine without removing existing one" then .AlreadyConnected
  else if msg = "Session factory already created" then .AlreadyFactory
  else if msg = "Cannot attach new Session without removing existing Session" then .SessionAlreadyActive
  else if msg = "Cannot bootstrap database without an Engine" then .NoEngine
  else if msg = "Cannot create session factory without an Engine" then .NoEngine
  else if msg = "Session factory must be created before a session can be generated" then .NoFactory
  else if msg = "Must have active session" then .NoActiveSession
  else if msg = "Cannot bootstrap database with MetaData" then .NoSchema
  else .Other

/-! Embedding of manager.py: lifecycle operations.

Each operation returns `(post-state, raised error message?)`; `none` means
the call returned normally. -/

/-- Method DBManager.create_engine: fails if `self._engine` is already set,
otherwise stores the engine built from the connection URL
(`freshEngine` stands for the handle `sqlalchemy.create_engine` returns). -/
def DBManager.create_engine (m : DBManager) (freshEngine : Nat) :
    DBManager × Option String :=
  if m._engine.isSome then
    (m, some "Cannot attach new Engine without removing existing one")
  else
    ({ m with _engine := some freshEngine }, none)

/-- Method DBManager.close_engine: if an engine is held, dispose it (a
collaborator call with no manager-visible state) and clear the slot;
otherwise do nothing.  Never raises. -/
def DBManager.close_engine (m : DBManager) : DBManager :=
  if m._engine.isSome then { m with _engine := none } else m

/-- Method DBManager.bootstrap_db: requires an engine and a metadata object;
`metadata.create_all(engine)` is a collaborator call that leaves the
manager's own state unchanged. -/
def DBManager.bootstrap_db (m : DBManager) : DBManager × Option String :=
  if m._engine.isNone then
    (m, some "Cannot bootstrap database without an Engine")
  else if m.metadata.isNone then
    (m, some "Cannot bootstrap database with MetaData")
  else
    (m, none)

/-- Method DBManager.create_session_factory: the existing-factory check comes
first in the source, then the missing-engine check; on success the
factory handle is stored (wrapped in a scoped-session registry when
`self._scoped_sessions`, which does not change the stored handle in this
model). -/
def DBManager.create_session_factory (m : DBManager) (freshFactory : Nat) :
    DBManager × Option String :=
  if m._session_factory.isSome then
    (m, some "Session factory already created")
  else if m._engine.isNone then
    (m, some "Cannot create session factory without an Engine")
  else
    ({ m with _session_factory := some freshFactory }, none)

/-- Method DBManager.connect: create the engine if absent, bootstrap if asked,
create the session factory if absent.  A raise in a sub-step aborts the
remaining steps but keeps the mutations already made to `self`. -/
def DBManager.connect (m : DBManager) (bootstrap : Bool)
    (freshEngine freshFactory : Nat) : DBManager × Option String :=
  let step1 := if m._engine.isNone then m.create_engine freshEngine else (m, none)
  match step1 with
  | (m1, some msg) => (m1, some msg)
  | (m1, none) =>
    let step2 := if bootstrap then m1.bootstrap_db else (m1, none)
    match step2 with
    | (m2, some msg) => (m2, some msg)
    | (m2, none) =>
      if m2._session_factory.isNone then m2.create_session_factory freshFactory
      else (m2, none)

/-- Method DBManager.gen_session: requires a session factory.  In scoped mode
the scoped-session registry (the factory handle) itself is returned and
nothing is stored.  Otherwise a new session is minted from the factory
(`freshSession` stands for it); with `persist` it is stored as the active
session, failing if one is already stored. -/
def DBManager.gen_session (m : DBManager) (persist : Bool)
    (freshSession : Nat) : DBManager × Except String Nat :=
  match m._session_factory with
  | none => (m, .error "Session factory must be created before a session can be generated")
  | some factory =>
    if m._scoped_sessions then (m, .ok factory)
    else if persist then
      if m._session.isSome then
        (m, .error "Cannot attach new Session without removing existing Session")
      else
        ({ m with _session := some freshSession }, .ok freshSession)
    else (m, .ok freshSession)

/-- Method DBManager.session: the current session — the scoped registry in
scoped mode, otherwise the stored active session. -/
def DBManager.session_view (m : DBManager) : Option Nat :=
  if m._scoped_sessions then m._session_factory else m._session

/-- Method DBManager.close_session: in scoped mode with a factory, remove the
context-keyed session from the registry (no manager-visible state);
otherwise close and clear the stored session if present. -/
def DBManager.close_session (m : DBManager) : DBManager :=
  if m._scoped_sessions && m._session_factory.isSome then m
  else if m._session.isSome then { m with _session := none }
  else m

/-- Method DBManager._assert_session: return the current session or raise. -/
def DBManager.assert_session (m : DBManager) : Except String Nat :=
  match m.session_view with
  | none => .error "Must have active session"
  | some s => .ok s

/-! Embedding of manager.py: query building.

`DBManager.query` wraps `Session.query(model)` and folds
`query.filter(getattr(model, arg) == kwargs[arg])` over the keyword
arguments.  The collaborator `Query` is modelled by the list of equality
predicates accumulated on it, in application order; its semantics over a
table of rows is the spec-documented one (each `filter` restricts the
result to rows satisfying the predicate). -/

/-- A row: an association list from field name to value. -/
def Row := List (String × Nat)
deriving DecidableEq, Repr

/-- Attribute access on a row (total, defaulting to 0 for absent fields,
as the model's columns are assumed to cover the filtered fields). -/
def Row.fieldValue (r : Row) (field : String) : Nat :=
  match List.lookup field r with
  | some v => v
  | none => 0

/-- The collaborator query object: the equality predicates accumulated by
`filter`, in application order. -/
structure Query where
  filters : List (String × Nat)
deriving DecidableEq, Repr

/-- Call query.filter(getattr(model, field) == value): appends one equality predicate. -/
def Query.filterEq (q : Query) (p : String × Nat) : Query :=
  { filters := q.filters ++ [p] }

/-- Method DBManager.query: asserts an active session, then builds the query by
folding `filterEq` over the keyword arguments in iteration order. -/
def DBManager.query (m : DBManager) (kwargs : List (String × Nat)) :
    Except String Query :=
  match m.assert_session with
  | .error msg => .error msg
  | .ok _ => .ok (kwargs.foldl Query.filterEq { filters := [] })

/-- Whether a row satisfies every predicate of a query (the conjunction
of its equality filters). -/
def Query.matchesRow (q : Query) (r : Row) : Bool :=
  q.filters.all (fun p => r.fieldValue p.1 == p.2)

/-- Running a query against a backend table that returns exactly the
matching rows. -/
def Query.run (q : Query) (table : List Row) : List Row :=
  table.filter q.matchesRow

/-! Helper lemmas. -/

/-- Folding the query's filter chain accumulates exactly the keyword
arguments, in iteration order, behind whatever was already there. -/
theorem foldl_filterEq (kwargs acc : List (String × Nat)) :
    (kwargs.foldl Query.filterEq { filters := acc }).filters = acc ++ kwargs := by
  induction kwargs generalizing acc with
  | nil => simp
  | cons p rest ih => simp [Query.filterEq, ih]

/-- A Boolean conjunction over a list is invariant under permutation. -/
theorem all_of_perm {α : Type} {l l' : List α} (h : List.Perm l l')
    (p : α → Bool) : l.all p = l'.all p := by
  induction h with
  | nil => rfl
  | cons a _ ih => simp [List.all_cons, ih]
  | swap a b l => simp [List.all_cons, Bool.and_left_comm]
  | trans _ _ ih1 ih2 => rw [ih1, ih2]

/-! Theorems settling the spec's claims. -/

/-- C5: close_engine is idempotent: it never fails (it is a total
function of the state), after it the manager is in lifecycle state
NoEngine, a second call changes nothing further, and the only component
it ever touches is the engine slot — in particular, when no engine
exists it is a no-op. -/
theorem close_engine_idempotent (m : DBManager) :
    lifecycle m.close_engine = .NoEngine ∧
    m.close_engine.close_engine = m.close_engine ∧
    m.close_engine = { m with _engine := none } := by
  obtain ⟨url, md, sc, e, s, f⟩ := m
  cases e <;> simp [DBManager.close_engine, lifecycle]

/-- C6: the TimestampDefault rendering is exact for every dialect in the
spec's table. -/
theorem timestamp_expression_table :
    generate_timestamp_expression .mssql = "GETUTCDATE()" ∧
    generate_timestamp_expression .mysql = "UTC_TIMESTAMP()" ∧
    generate_timestamp_expression .oracle = "SYS_EXTRACT_UTC(SYSTIMESTAMP)" ∧
    generate_timestamp_expression .postgresql = "(NOW() AT TIME ZONE 'UTC')" ∧
    generate_timestamp_expression .sqlite = "CURRENT_TIMESTAMP" :=
  ⟨rfl, rfl, rfl, rfl, rfl⟩

/-- C7: UnicodeText renders TEXT on mysql, postgresql and sqlite for
every length; on mssql and oracle an absent or non-positive length
yields the unbounded marker (NVARCHAR(MAX), NVARCHAR2(4000)) and a
positive length is substituted literally. -/
theorem ntext_type_table (length : Option Int) :
    generate_ntext_type length .mysql = "TEXT" ∧
    generate_ntext_type length .postgresql = "TEXT" ∧
    generate_ntext_type length .sqlite = "TEXT" ∧
    ((∀ l, length = some l → l ≤ 0) →
      generate_ntext_type length .mssql = "NVARCHAR(MAX)" ∧
      generate_ntext_type length .oracle = "NVARCHAR2(4000)") ∧
    (∀ l, length = some l → 0 < l →
      generate_ntext_type length .mssql = "NVARCHAR(" ++ toString l ++ ")" ∧
      generate_ntext_type length .oracle = "NVARCHAR2(" ++ toString l ++ ")") := by
  refine ⟨rfl, rfl, rfl, ?_, ?_⟩
  · intro h
    cases length with
    | none => exact ⟨rfl, rfl⟩
    | some l =>
      have hl : l ≤ 0 := h l rfl
      constructor <;> simp [generate_ntext_type, hl]
  · intro l hl hpos
    subst hl
    have : ¬ l ≤ 0 := by omega
    constructor <;> simp [generate_ntext_type, this]

/-- C7 witness: the spec's sample points, NVARCHAR2(10) for
UnicodeText(10) on oracle and NVARCHAR(MAX) for UnicodeText(0) on
mssql. -/
theorem ntext_type_table_witness :
    generate_ntext_type (some 10) .oracle = "NVARCHAR2(10)" ∧
    generate_ntext_type (some 0) .mssql = "NVARCHAR(MAX)" := by
  constructor
  · exact ((ntext_type_table (some 10)).2.2.2.2 10 rfl (by decide)).2
  · exact ((ntext_type_table (some 0)).2.2.2.1
      (fun l hl => by injection hl with h; omega)).1

/-- C8: evaluating the registered before-drop-all hook: for a
non-materialized view the rendered DDL on every dialect is
DROP VIEW IF EXISTS followed by the name, as the claim states; but for a
materialized view on postgresql the source's renderer emits the
misspelled keyword MATERIZLIZED, so the rendered text is not the
materialized-view drop form the claim (and the renderer's own
documentation) call for. -/
theorem mview_drop_rendered_text :
    (∀ name d, render_drop (before_drop_hook name false) d
      = "DROP VIEW IF EXISTS " ++ name) ∧
    render_drop (before_drop_hook "post_audit_timeline" true) .postgresql
      = "DROP MATERIZLIZED VIEW IF EXISTS post_audit_timeline" ∧
    render_drop (before_drop_hook "post_audit_timeline" true) .postgresql
      ≠ "DROP MATERIALIZED VIEW IF EXISTS post_audit_timeline" := by
  refine ⟨fun name d => ?_, rfl, by decide⟩
  cases d <;> rfl

/-- C1 (amended): a second create_engine on a manager that holds an
engine fails with AlreadyConnected and changes nothing, so the first
engine handle is still held; on a manager in state NoEngine,
create_engine succeeds and afterwards the new engine is held — the
resulting state is EngineOnly when no session factory was held, and
Connected when a factory survived an earlier close_engine. -/
theorem create_engine_spec (m : DBManager) (freshEngine : Nat) :
    (m._engine.isSome →
      m.create_engine freshEngine
        = (m, some "Cannot attach new Engine without removing existing one") ∧
      errorKind "Cannot attach new Engine without removing existing one"
        = .AlreadyConnected) ∧
    (lifecycle m = .NoEngine →
      (m.create_engine freshEngine).2 = none ∧
      (m.create_engine freshEngine).1 = { m with _engine := some freshEngine } ∧
      (m._session_factory = none →
        lifecycle (m.create_engine freshEngine).1 = .EngineOnly) ∧
      (m._session_factory.isSome →
        lifecycle (m.create_engine freshEngine).1 = .Connected)) := by
  constructor
  · intro h
    simp [DBManager.create_engine, h, errorKind]
  · intro h
    have he : m._engine = none := by
      cases hE : m._engine with
      | none => rfl
      | some e =>
        cases hF : m._session_factory <;> simp [lifecycle, hE, hF] at h
    refine ⟨?_, ?_, ?_, ?_⟩
    · simp [DBManager.create_engine, he]
    · simp [DBManager.create_engine, he]
    · intro hf
      simp [DBManager.create_engine, he, lifecycle, hf]
    · intro hfs
      obtain ⟨f, hf⟩ := Option.isSome_iff_exists.mp hfs
      simp [DBManager.create_engine, he, lifecycle, hf]

/-- C1 witness: on a freshly constructed manager create_engine yields
EngineOnly, and a second call fails with AlreadyConnected leaving the
first engine in place. -/
theorem create_engine_spec_witness :
    let m0 := DBManager.init "sqlite://"
    let m1 := (m0.create_engine 1).1
    lifecycle m1 = .EngineOnly ∧
    m1.create_engine 2
      = (m1, some "Cannot attach new Engine without removing existing one") ∧
    m1._engine = some 1 := by
  refine ⟨((create_engine_spec (DBManager.init "sqlite://") 1).2 (by decide)).2.2.1 rfl,
    ((create_engine_spec ((DBManager.init "sqlite://").create_engine 1).1 2).1 (by decide)).1,
    by decide⟩

/-- C1 counterexample: the claim as stated says every manager in state
NoEngine transitions to EngineOnly.  The state reached from a fresh
manager by create_engine, create_session_factory, close_engine is in
state NoEngine (the spec itself names the post-close_engine state
NoEngine) but still holds a session factory, so create_engine succeeds
into Connected, not EngineOnly. -/
theorem create_engine_to_connected_cex :
    let m : DBManager :=
      { connection_url := "sqlite://", metadata := none,
        _scoped_sessions := false, _engine := none,
        _session := none, _session_factory := some 0 }
    ((((DBManager.init "sqlite://").create_engine 7).1.create_session_factory 0).1.close_engine) = m ∧
    lifecycle m = .NoEngine ∧
    (m.create_engine 1).2 = none ∧
    lifecycle (m.create_engine 1).1 = .Connected ∧
    lifecycle (m.create_engine 1).1 ≠ .EngineOnly := by
  decide

/-- C2: in unscoped mode with a session factory and no stored session, a
first gen_session(persist=True) succeeds and stores the minted session;
a second one without an intervening close_session fails with
SessionAlreadyActive and leaves the manager — in particular the stored
session of the first call — unchanged. -/
theorem gen_session_persist_twice (m : DBManager) (factory s1 s2 : Nat)
    (hsc : m._scoped_sessions = false) (hf : m._session_factory = some factory)
    (h0 : m._session = none) :
    (m.gen_session true s1).2 = .ok s1 ∧
    (m.gen_session true s1).1._session = some s1 ∧
    (m.gen_session true s1).1.gen_session true s2
      = ((m.gen_session true s1).1,
         .error "Cannot attach new Session without removing existing Session") ∧
    errorKind "Cannot attach new Session without removing existing Session"
      = .SessionAlreadyActive ∧
    ((m.gen_session true s1).1.gen_session true s2).1._session = some s1 := by
  refine ⟨?_, ?_, ?_, by decide, ?_⟩ <;>
    simp [DBManager.gen_session, hsc, hf, h0]

/-- C2 witness: a concrete connected unscoped manager exhibits the
success-then-SessionAlreadyActive behaviour. -/
theorem gen_session_persist_twice_witness :
    let m : DBManager :=
      { connection_url := "sqlite://", metadata := none,
        _scoped_sessions := false, _engine := some 1,
        _session := none, _session_factory := some 2 }
    (m.gen_session true 3).2 = .ok 3 ∧
    (m.gen_session true 3).1.gen_session true 4
      = ((m.gen_session true 3).1,
         .error "Cannot attach new Session without removing existing Session") ∧
    ((m.gen_session true 3).1.gen_session true 4).1._session = some 3 := by
  have h := gen_session_persist_twice
    { connection_url := "sqlite://", metadata := none,
      _scoped_sessions := false, _engine := some 1,
      _session := none, _session_factory := some 2 } 2 3 4 rfl rfl rfl
  exact ⟨h.1, h.2.2.1, h.2.2.2.2⟩

/-- C3 (amended): create_session_factory fails with NoEngine whenever no
engine and no session factory are held, whatever the rest of the state;
but the existing-factory check precedes the missing-engine check, so a
manager that still holds a factory while its engine has been closed
fails with AlreadyFactory instead. -/
theorem create_session_factory_noEngine (m : DBManager) (freshFactory : Nat)
    (hf : m._session_factory = none) (he : m._engine = none) :
    m.create_session_factory freshFactory
      = (m, some "Cannot create session factory without an Engine") ∧
    errorKind "Cannot create session factory without an Engine" = .NoEngine := by
  constructor
  · simp [DBManager.create_session_factory, hf, he]
  · decide

/-- C3 witness: a freshly constructed manager has neither engine nor
factory and create_session_factory fails with NoEngine. -/
theorem create_session_factory_noEngine_witness :
    (DBManager.init "sqlite://").create_session_factory 1
      = (DBManager.init "sqlite://",
         some "Cannot create session factory without an Engine") :=
  (create_session_factory_noEngine (DBManager.init "sqlite://") 1 rfl rfl).1

/-- C3 counterexample: the claim as stated says NoEngine is raised
regardless of any other component of the state, naming in particular the
reachable factory-without-engine state.  There the code raises
AlreadyFactory, not NoEngine. -/
theorem create_session_factory_alreadyFactory_cex :
    let m : DBManager :=
      { connection_url := "sqlite://", metadata := none,
        _scoped_sessions := false, _engine := none,
        _session := none, _session_factory := some 3 }
    ((((DBManager.init "sqlite://").create_engine 7).1.create_session_factory 3).1.close_engine) = m ∧
    m._engine = none ∧
    (m.create_session_factory 4).2 = some "Session factory already created" ∧
    errorKind "Session factory already created" = .AlreadyFactory ∧
    errorKind "Session factory already created" ≠ .NoEngine := by
  decide

/-- C4 (amended): on a manager with no engine, no session factory and no
metadata, connect(bootstrap=True) fails with NoSchema, but only after
its first sub-step has already created and stored an engine; the
bootstrap failure aborts the remaining steps, so no session factory is
created, and the failing precondition check itself mutates nothing
beyond that already-performed sub-step. -/
theorem connect_bootstrap_noSchema (m : DBManager) (freshE freshF : Nat)
    (he : m._engine = none) (hf : m._session_factory = none)
    (hmd : m.metadata = none) :
    m.connect true freshE freshF
      = ({ m with _engine := some freshE },
         some "Cannot bootstrap database with MetaData") ∧
    errorKind "Cannot bootstrap database with MetaData" = .NoSchema ∧
    (m.connect true freshE freshF).1._engine = some freshE ∧
    (m.connect true freshE freshF).1._session_factory = none := by
  have h1 : m.connect true freshE freshF
      = ({ m with _engine := some freshE },
         some "Cannot bootstrap database with MetaData") := by
    simp [DBManager.connect, DBManager.create_engine, DBManager.bootstrap_db,
      he, hf, hmd]
  refine ⟨h1, by decide, ?_, ?_⟩
  · rw [h1]
  · rw [h1]
    simp [hf]

/-- C4 witness: a freshly constructed manager without metadata. -/
theorem connect_bootstrap_noSchema_witness :
    (DBManager.init "sqlite://").connect true 1 2
      = ({ DBManager.init "sqlite://" with _engine := some 1 },
         some "Cannot bootstrap database with MetaData") :=
  (connect_bootstrap_noSchema (DBManager.init "sqlite://") 1 2 rfl rfl rfl).1

/-- C4 counterexample: the claim as stated says the failed
connect(bootstrap=True) leaves the manager holding no engine; on a fresh
manager the failing call leaves the engine created by the first sub-step
in place. -/
theorem connect_bootstrap_mutates_cex :
    (DBManager.init "sqlite://")._engine = none ∧
    (DBManager.init "sqlite://")._session_factory = none ∧
    (DBManager.init "sqlite://").metadata = none ∧
    ((DBManager.init "sqlite://").connect true 1 2).2
      = some "Cannot bootstrap database with MetaData" ∧
    errorKind "Cannot bootstrap database with MetaData" = .NoSchema ∧
    ((DBManager.init "sqlite://").connect true 1 2).1._engine = some 1 ∧
    ((DBManager.init "sqlite://").connect true 1 2).1._engine ≠ none := by
  decide

/-- C9: with an active session, query builds the read whose filter chain
is exactly the supplied (field, value) pairs in iteration order; a row is
selected iff it is in the table and satisfies every equality predicate
(their conjunction); and the selected rows are the same for any
permutation of the pairs. -/
theorem query_conjunction_order_independent (m : DBManager) (s : Nat)
    (hs : m.session_view = some s) (kwargs : List (String × Nat)) :
    m.query kwargs = .ok { filters := kwargs } ∧
    (∀ table r, r ∈ Query.run { filters := kwargs } table ↔
      r ∈ table ∧ ∀ p ∈ kwargs, Row.fieldValue r p.1 = p.2) ∧
    (∀ kwargs' table, List.Perm kwargs kwargs' →
      Query.run { filters := kwargs } table
        = Query.run { filters := kwargs' } table) := by
  refine ⟨?_, ?_, ?_⟩
  · have hfold : kwargs.foldl Query.filterEq { filters := [] }
        = ({ filters := kwargs } : Query) := by
      have := foldl_filterEq kwargs []
      cases hq : kwargs.foldl Query.filterEq { filters := [] }
      simp_all
    simp [DBManager.query, DBManager.assert_session, hs, hfold]
  · intro table r
    simp [Query.run, Query.matchesRow, List.mem_filter, List.all_eq_true]
  · intro kwargs' table hperm
    have hmatch : Query.matchesRow { filters := kwargs }
        = Query.matchesRow { filters := kwargs' } := by
      funext r
      exact all_of_perm hperm _
    simp [Query.run, hmatch]

/-- C9 witness: a concrete manager with an active session and the spec's
two-field filter; in particular the two orders of the mapping select the
same rows from a concrete two-row table. -/
theorem query_conjunction_order_independent_witness :
    let m : DBManager :=
      { connection_url := "sqlite://", metadata := none,
        _scoped_sessions := false, _engine := some 1,
        _session := some 5, _session_factory := some 2 }
    m.query [("first_name", 1), ("email", 2)]
      = .ok { filters := [("first_name", 1), ("email", 2)] } ∧
    (∀ table, Query.run { filters := [("first_name", 1), ("email", 2)] } table
      = Query.run { filters := [("email", 2), ("first_name", 1)] } table) := by
  have h := query_conjunction_order_independent
    { connection_url := "sqlite://", metadata := none,
      _scoped_sessions := false, _engine := some 1,
      _session := some 5, _session_factory := some 2 } 5 rfl
    [("first_name", 1), ("email", 2)]
  exact ⟨h.1, fun table =>
    h.2.2 [("email", 2), ("first_name", 1)] table (List.Perm.swap _ _ _)⟩

/-- C10: in unscoped mode with a session factory and a stored active
session, gen_session(persist=False) succeeds, returns the freshly minted
session, never raises, and leaves the manager — hence the stored active
session reported by the session method — unchanged. -/
theorem gen_session_nonpersist_frame (m : DBManager)
    (factory s freshSession : Nat)
    (hsc : m._scoped_sessions = false) (hf : m._session_factory = some factory)
    (hs : m._session = some s) :
    m.gen_session false freshSession = (m, .ok freshSession) ∧
    (m.gen_session false freshSession).1.session_view = some s ∧
    (m.gen_session false freshSession).1.session_view = m.session_view := by
  have h1 : m.gen_session false freshSession = (m, .ok freshSession) := by
    simp [DBManager.gen_session, hsc, hf]
  refine ⟨h1, ?_, by rw [h1]⟩
  rw [h1]
  simp [DBManager.session_view, hsc, hs]

/-- C10 witness: a concrete unscoped manager with stored session 5 mints
session 9 without touching the stored one. -/
theorem gen_session_nonpersist_frame_witness :
    let m : DBManager :=
      { connection_url := "sqlite://", metadata := none,
        _scoped_sessions := false, _engine := some 1,
        _session := some 5, _session_factory := some 2 }
    m.gen_session false 9 = (m, .ok 9) ∧
    (m.gen_session false 9).1.session_view = some 5 := by
  have h := gen_session_nonpersist_frame
    { connection_url := "sqlite://", metadata := none,
      _scoped_sessions := false, _engine := some 1,
      _session := some 5, _session_factory := some 2 } 2 5 9 rfl rfl rfl
  exact ⟨h.1, h.2.1⟩

end DbUtils
